import Mathlib

/-!
# Wireless echo scenarios (`mythird_1.cc`)

A shallow embedding of the two scenario scripts of the repository:

* `ThirdScript_Lab2.1` : the ad-hoc script (`main1`);
* `ThirdScriptExample` : the access-point/station script (`main2`).

Both scripts are straight-line configuration code that drives helper objects
of the simulation engine.  The scripts themselves are translated statement by
statement; the helper objects they call (node containers, the grid position
allocator, the mobility/wifi/address/application helpers, the simulator
front-end) belong to the engine and are modelled from the specification.
-/

namespace Scenario

/-! ## Data model -/

/-- Simulated time, counted in nanoseconds. -/
abbrev Time := Nat

/-- The engine's `Seconds(s)` for a whole number of seconds. -/
def Seconds (s : Nat) : Time := s * 1000000000

/-- A planar position.  Every coordinate the scripts configure is a whole
number, so coordinates are integers. -/
structure Vec2 where
  x : Int
  y : Int
  deriving DecidableEq, Repr

/-- The engine's `Rectangle(xMin, xMax, yMin, yMax)`. -/
structure Rectangle where
  xMin : Int
  xMax : Int
  yMin : Int
  yMax : Int
  deriving DecidableEq, Repr

/-- Closed-rectangle membership, `[xMin,xMax] × [yMin,yMax]`. -/
def Rectangle.IsInside (r : Rectangle) (p : Vec2) : Prop :=
  r.xMin ≤ p.x ∧ p.x ≤ r.xMax ∧ r.yMin ≤ p.y ∧ p.y ≤ r.yMax

instance (r : Rectangle) (p : Vec2) : Decidable (r.IsInside p) := by
  unfold Rectangle.IsInside; infer_instance

/-- Mobility policies of the specification's data model. -/
inductive MobilityPolicy where
  | static
  | boundedRandomWalk (bounds : Rectangle)
  deriving DecidableEq, Repr

/-- Roles a wireless interface can take. -/
inductive NetworkRole where
  | coordinator
  | peer
  | adHocPeer
  deriving DecidableEq, Repr

/-- A simulated participant: identity, position (once placed) and the roles
of the interfaces attached to it, in attachment order. -/
structure Node where
  index : Nat
  position : Option Vec2
  interfaces : List NetworkRole
  deriving DecidableEq, Repr

/-- A wireless interface: the node that carries it and its role. -/
structure NetDevice where
  node : Nat
  role : NetworkRole
  deriving DecidableEq, Repr

/-- One effect of mobility installation: the node, the policy requested for
it and the position the allocator handed out for it. -/
structure Placement where
  node : Nat
  policy : MobilityPolicy
  position : Vec2
  deriving DecidableEq, Repr

/-- The two application roles, with the client's traffic parameters. -/
inductive AppRole where
  | server (port : Nat)
  | client (destination : Nat) (port : Nat) (maxPackets : Nat) (interval : Time)
      (packetSize : Nat)
  deriving DecidableEq, Repr

/-- An application and its activity window.  A window that was never
configured starts at 0 and has no stop time. -/
structure ApplicationEvent where
  node : Nat
  role : AppRole
  startTime : Time
  stopTime : Option Time
  deriving DecidableEq, Repr

/-- A capture armed on an interface under a label. -/
structure CaptureRequest where
  label : String
  device : NetDevice
  deriving DecidableEq, Repr

/-- Life cycle of the event scheduler. -/
inductive SimState where
  | idle
  | halted
  | destroyed
  deriving DecidableEq, Repr

/-- Everything the process owns while a script runs. -/
structure World where
  nodes : List Node
  placements : List Placement
  apps : List ApplicationEvent
  stopAt : Option Time
  captures : List CaptureRequest
  sim : SimState
  logComponents : List String
  stdout : List String
  deriving DecidableEq, Repr

/-- The state of a freshly started process. -/
def World.init : World :=
  { nodes := [], placements := [], apps := [], stopAt := none, captures := [],
    sim := SimState.idle, logComponents := [], stdout := [] }

/-- The positions the allocator has handed out so far, in call order. -/
def World.allocated (w : World) : List Vec2 := w.placements.map Placement.position

/-! ## Script monad: state, early `return`, and out-of-range container access -/

/-- Ways a script stops before reaching its last statement. -/
inductive Halt where
  | exit (code : Nat)
  | outOfRange (index : Nat) (size : Nat)
  deriving DecidableEq, Repr

/-- Result of running a script fragment from some world. -/
inductive Outcome (α : Type) where
  | ok (a : α) (w : World)
  | halt (h : Halt) (w : World)
  deriving Repr

/-- A script fragment. -/
def Script (α : Type) : Type := World → Outcome α

/-- Sequencing: a halted fragment skips everything after it. -/
def Script.bind {α β : Type} (m : Script α) (f : α → Script β) : Script β :=
  fun w =>
    match m w with
    | Outcome.ok a w1 => f a w1
    | Outcome.halt h w1 => Outcome.halt h w1

instance : Monad Script where
  pure a := fun w => Outcome.ok a w
  bind := Script.bind

/-- The statement `return code;` of `main`. -/
def exit {α : Type} (code : Nat) : Script α := fun w => Outcome.halt (Halt.exit code) w

/-- Apply a state change. -/
def update (f : World → World) : Script Unit := fun w => Outcome.ok () (f w)

/-- The containers' `Get(i)`: element `i` of a container.  The engine does
not check the index: reading past the end is undefined behaviour of the C++
program, modelled as the script stopping at that statement with the index and
the container size on record. -/
def getAt {α : Type} (xs : List α) (i : Nat) : Script α :=
  fun w =>
    match xs.get? i with
    | some a => Outcome.ok a w
    | none => Outcome.halt (Halt.outOfRange i xs.length) w

/-- The world a run ends in. -/
def Outcome.world {α : Type} : Outcome α → World
  | Outcome.ok _ w => w
  | Outcome.halt _ w => w

/-- The process exit status: `some code` when `main` returned `code`, `none`
when the script was stopped by an out-of-range access. -/
def Outcome.exitStatus {α : Type} : Outcome α → Option Nat
  | Outcome.ok _ _ => none
  | Outcome.halt (Halt.exit code) _ => some code
  | Outcome.halt (Halt.outOfRange _ _) _ => none

/-- The out-of-range access that stopped the script, if any, as
`(index, container size)`. -/
def Outcome.fault {α : Type} : Outcome α → Option (Nat × Nat)
  | Outcome.halt (Halt.outOfRange i n) _ => some (i, n)
  | _ => none

/-! ## Position allocator -/

/-- The grid allocator's configuration. -/
structure GridLayoutConfig where
  minX : Int
  minY : Int
  deltaX : Int
  deltaY : Int
  gridWidth : Nat
  rowFirst : Bool
  deriving DecidableEq, Repr

/-- Modelled from the spec: the engine's grid position allocator (its source
is not part of the repository).  The state is the coordinate along the
current line (`along`), the coordinate of the line itself (`across`) and the
number of positions already handed out on the current line (`column`). -/
structure PositionAllocator where
  cfg : GridLayoutConfig
  along : Int
  across : Int
  column : Nat
  deriving DecidableEq, Repr

/-- Modelled from the spec: a fresh allocator stands at `(minX, minY)`. -/
def PositionAllocator.new (cfg : GridLayoutConfig) : PositionAllocator :=
  if cfg.rowFirst then { cfg := cfg, along := cfg.minX, across := cfg.minY, column := 0 }
  else { cfg := cfg, along := cfg.minY, across := cfg.minX, column := 0 }

/-- Modelled from the spec: `next()` returns the current grid coordinate and
moves on: one step (`deltaX` for a row-first layout) along the line, and
after `gridWidth` positions back to the start of the line and one step
(`deltaY` for a row-first layout) to the next line. -/
def PositionAllocator.next (a : PositionAllocator) : Vec2 × PositionAllocator :=
  let p : Vec2 := if a.cfg.rowFirst then ⟨a.along, a.across⟩ else ⟨a.across, a.along⟩
  let stepAlong := if a.cfg.rowFirst then a.cfg.deltaX else a.cfg.deltaY
  let stepAcross := if a.cfg.rowFirst then a.cfg.deltaY else a.cfg.deltaX
  let lineStart := if a.cfg.rowFirst then a.cfg.minX else a.cfg.minY
  if a.column + 1 < a.cfg.gridWidth then
    (p, { a with along := a.along + stepAlong, column := a.column + 1 })
  else
    (p, { a with along := lineStart, across := a.across + stepAcross, column := 0 })

/-- The allocator after `k` calls of `next()`. -/
def PositionAllocator.advance (a : PositionAllocator) : Nat → PositionAllocator
  | 0 => a
  | k + 1 => ((a.advance k).next).2

/-- The position the `i`-th call of `next()` (counting from 0) returns. -/
def PositionAllocator.nth (a : PositionAllocator) (i : Nat) : Vec2 := ((a.advance i).next).1

/-- The closed form of the specification: index `i` of a row-first grid. -/
def gridPosition (cfg : GridLayoutConfig) (i : Nat) : Vec2 :=
  ⟨cfg.minX + ((i % cfg.gridWidth : Nat) : Int) * cfg.deltaX,
   cfg.minY + ((i / cfg.gridWidth : Nat) : Int) * cfg.deltaY⟩

/-! ## Engine helpers used by the scripts -/

/-- A node container: the indices of the nodes it holds, in insertion order. -/
abbrev NodeContainer := List Nat

/-- A device container, in installation order. -/
abbrev NetDeviceContainer := List NetDevice

/-- An application container: positions in the world's application list. -/
abbrev ApplicationContainer := List Nat

/-- Modelled from the spec: `createNodes(n)` allocates `n` nodes with the next
`n` sequential indices (0..n-1 in a fresh world) and adds them to the
container. -/
def NodeContainer.Create (c : NodeContainer) (n : Nat) : Script NodeContainer :=
  fun w =>
    let fresh := (List.range n).map (fun k => w.nodes.length + k)
    Outcome.ok (c ++ fresh)
      { w with nodes := w.nodes ++ fresh.map (fun i => { index := i, position := none, interfaces := [] }) }

/-- Attach one interface of role `role` to the node with index `idx`. -/
def attachInterface (role : NetworkRole) (idx : Nat) (nodes : List Node) : List Node :=
  nodes.map (fun nd => if nd.index = idx then { nd with interfaces := nd.interfaces ++ [role] } else nd)

/-- Modelled from the spec: `installWirelessInterfaces(nodes, role)` attaches
one interface with the role-specific MAC behaviour to each node of the
container, in container order, and returns the new devices. -/
def WifiHelper.Install (mac : NetworkRole) (c : NodeContainer) : Script NetDeviceContainer :=
  fun w =>
    Outcome.ok (c.map (fun i => { node := i, role := mac }))
      { w with nodes := c.foldl (fun ns i => attachInterface mac i ns) w.nodes }

/-- Set the position of the node with index `idx`. -/
def setPosition (idx : Nat) (p : Vec2) (nodes : List Node) : List Node :=
  nodes.map (fun nd => if nd.index = idx then { nd with position := some p } else nd)

/-- The mobility helper: its position allocator and the policy it installs. -/
structure MobilityHelper where
  position : PositionAllocator
  model : MobilityPolicy
  deriving DecidableEq, Repr

/-- The helper's `SetMobilityModel`. -/
def MobilityHelper.SetMobilityModel (m : MobilityHelper) (p : MobilityPolicy) : MobilityHelper :=
  { m with model := p }

/-- Modelled from the spec: mobility installation on one node (engine code).
The node takes the allocator's next position, also when it was placed
before, and the placement is recorded. -/
def MobilityHelper.installOne (m : MobilityHelper) (idx : Nat) (w : World) :
    MobilityHelper × World :=
  let r := m.position.next
  ({ m with position := r.2 },
   { w with nodes := setPosition idx r.1 w.nodes,
            placements := w.placements ++ [{ node := idx, policy := m.model, position := r.1 }] })

/-- Mobility installation on the nodes of a container, in container order. -/
def MobilityHelper.installAll : MobilityHelper → List Nat → World → MobilityHelper × World
  | m, [], w => (m, w)
  | m, i :: rest, w => MobilityHelper.installAll (m.installOne i w).1 rest (m.installOne i w).2

/-- Modelled from the spec: `installMobility(nodes, policyFactory)` places
each node of the container at the allocator's next position.  The allocator
is shared by all installations made through one helper. -/
def MobilityHelper.Install (m : MobilityHelper) (c : NodeContainer) : Script MobilityHelper :=
  fun w => Outcome.ok (m.installAll c w).1 (m.installAll c w).2

/-- An IPv4 address as a 32-bit number. -/
def ipv4 (a b c d : Nat) : Nat := ((a * 256 + b) * 256 + c) * 256 + d

/-- The address helper: network base, mask and the next host number. -/
structure Ipv4AddressHelper where
  network : Nat
  mask : Nat
  host : Nat
  deriving DecidableEq, Repr

/-- The helper's `SetBase(network, mask)`: hosts are numbered from 1. -/
def Ipv4AddressHelper.SetBase (network mask : Nat) : Ipv4AddressHelper :=
  { network := network, mask := mask, host := 1 }

/-- An interface container: each device with the address it was given. -/
abbrev Ipv4InterfaceContainer := List (NetDevice × Nat)

/-- Addresses for a list of devices, numbering hosts from `host`. -/
def assignFrom (network : Nat) : Nat → List NetDevice → Ipv4InterfaceContainer
  | _, [] => []
  | host, d :: rest => (d, network + host) :: assignFrom network (host + 1) rest

/-- Modelled from the spec: `installAddressing(interfaces, block)` assigns one
address of the block per interface, in installation order. -/
def Ipv4AddressHelper.Assign (h : Ipv4AddressHelper) (devs : NetDeviceContainer) :
    Ipv4AddressHelper × Ipv4InterfaceContainer :=
  ({ h with host := h.host + devs.length }, assignFrom h.network h.host devs)

/-- The interface container's `GetAddress(i)`. -/
def GetAddress (c : Ipv4InterfaceContainer) (i : Nat) : Script Nat := do
  let e ← getAt c i
  pure e.2

/-- Modelled from the spec: creating an application event on a node (the
application helpers are engine code); its window is not configured yet. -/
def installApp (node : Nat) (role : AppRole) : Script ApplicationContainer :=
  fun w =>
    Outcome.ok [w.apps.length]
      { w with apps := w.apps ++ [{ node := node, role := role, startTime := 0, stopTime := none }] }

/-- The echo server helper's `Install(node)`. -/
def UdpEchoServerHelper.Install (port : Nat) (node : Nat) : Script ApplicationContainer :=
  installApp node (AppRole.server port)

/-- The echo client helper: destination and traffic attributes. -/
structure UdpEchoClientHelper where
  remote : Nat
  port : Nat
  maxPackets : Nat
  interval : Time
  packetSize : Nat
  deriving DecidableEq, Repr

/-- The echo client helper's `Install(node)`. -/
def UdpEchoClientHelper.Install (h : UdpEchoClientHelper) (node : Nat) :
    Script ApplicationContainer :=
  installApp node (AppRole.client h.remote h.port h.maxPackets h.interval h.packetSize)

/-- Change the element at position `k` of a list. -/
def modifyAt {α : Type} (f : α → α) : List α → Nat → List α
  | [], _ => []
  | a :: rest, 0 => f a :: rest
  | a :: rest, k + 1 => a :: modifyAt f rest k

/-- Modelled from the spec: the application container's `Start(t)` sets the
start time of each application it holds. -/
def ApplicationContainer.Start (c : ApplicationContainer) (t : Time) : Script Unit :=
  update (fun w =>
    { w with apps := c.foldl (fun apps k => modifyAt (fun a => { a with startTime := t }) apps k) w.apps })

/-- Modelled from the spec: the application container's `Stop(t)` sets the
stop time of each application it holds. -/
def ApplicationContainer.Stop (c : ApplicationContainer) (t : Time) : Script Unit :=
  update (fun w =>
    { w with apps := c.foldl (fun apps k => modifyAt (fun a => { a with stopTime := some t }) apps k) w.apps })

/-- Modelled from the spec: `Simulator::Stop(t)` of the engine registers the
stop event at the horizon `t`. -/
def Simulator.Stop (t : Time) : Script Unit :=
  update (fun w => { w with stopAt := some t })

/-- Modelled from the spec: `Simulator::Run()` of the engine drains the event
queue up to the stop event and leaves the scheduler halted. -/
def Simulator.Run : Script Unit :=
  update (fun w => { w with sim := SimState.halted })

/-- Modelled from the spec: `Simulator::Destroy()` of the engine tears the
halted scheduler down. -/
def Simulator.Destroy : Script Unit :=
  update (fun w => { w with sim := SimState.destroyed })

/-- Modelled from the spec: `armCapture(interface, label)`, the engine's
`phy.EnablePcap(label, device)`, marks one device for capture. -/
def EnablePcap (label : String) (d : NetDevice) : Script Unit :=
  update (fun w => { w with captures := w.captures ++ [{ label := label, device := d }] })

/-- `LogComponentEnable(name, LOG_LEVEL_INFO)`. -/
def LogComponentEnable (name : String) : Script Unit :=
  update (fun w => { w with logComponents := w.logComponents ++ [name] })

/-- `std::cout << msg << std::endl`. -/
def print (msg : String) : Script Unit :=
  update (fun w => { w with stdout := w.stdout ++ [msg] })

/-- The values given on the command line; an absent flag keeps the default. -/
structure CommandLine where
  nWifi : Option Nat
  verbose : Option Bool
  tracing : Option Bool
  deriving DecidableEq, Repr

/-! ## The two scripts -/

/-- The grid both scripts configure: origin (0,0), steps 5 and 10, width 3,
row first. -/
def gridConfig : GridLayoutConfig :=
  { minX := 0, minY := 0, deltaX := 5, deltaY := 10, gridWidth := 3, rowFirst := true }

/-- The mobility bounds both scripts configure: `Rectangle(-90, 90, -90, 90)`. -/
def mobilityBounds : Rectangle := { xMin := -90, xMax := 90, yMin := -90, yMax := 90 }

/-- The message of the node-count guard. -/
def guardMessage : String :=
  "nWifi should be 18 or less; otherwise grid layout exceeds the bounding box"

/-- The script `ThirdScript_Lab2.1` (ad-hoc scenario), lines 28-146. -/
def main1 (cl : CommandLine) : Script Unit := do
  let verbose := true
  let tracing := true
  let nWifi := 5
  let wifiNodes : NodeContainer := []
  let wifiNodes ← wifiNodes.Create nWifi
  -- cmd.Parse(argc, argv)
  let nWifi := cl.nWifi.getD nWifi
  let verbose := cl.verbose.getD verbose
  let tracing := cl.tracing.getD tracing
  if nWifi > 18 then
    print guardMessage
    exit 1
  if verbose then
    LogComponentEnable "UdpEchoClientApplication"
    LogComponentEnable "UdpEchoServerApplication"
  -- channel, phy, rate manager and standard: engine internals, no modelled state
  let mac := NetworkRole.adHocPeer
  let wifiDevices ← WifiHelper.Install mac wifiNodes
  let mobility : MobilityHelper :=
    { position := PositionAllocator.new gridConfig,
      model := MobilityPolicy.boundedRandomWalk mobilityBounds }
  let _ ← mobility.Install wifiNodes
  -- stack.Install(wifiNodes): IP stack, engine internal
  let address := Ipv4AddressHelper.SetBase (ipv4 192 168 1 0) (ipv4 255 255 255 0)
  let wifiInterfaces := (address.Assign wifiDevices).2
  -- SERVER
  let serverApp ← UdpEchoServerHelper.Install 20 (← getAt wifiNodes 0)
  serverApp.Start (Seconds 1)
  serverApp.Stop (Seconds 10)
  -- UDP Echo client on Node 3
  let echoClient_n3 : UdpEchoClientHelper :=
    { remote := (← GetAddress wifiInterfaces 0), port := 20,
      maxPackets := 2, interval := Seconds 1, packetSize := 512 }
  let clientApps_n3 ← echoClient_n3.Install (← getAt wifiNodes 3)
  clientApps_n3.Start (Seconds 1)
  clientApps_n3.Stop (Seconds 3)
  -- UDP Echo client on Node 4
  let echoClient_n4 : UdpEchoClientHelper :=
    { remote := (← GetAddress wifiInterfaces 0), port := 20,
      maxPackets := 2, interval := Seconds 1, packetSize := 512 }
  let clientApps_n4 ← echoClient_n4.Install (← getAt wifiNodes 4)
  clientApps_n4.Start (Seconds 2)
  clientApps_n4.Stop (Seconds 5)
  -- Ipv4GlobalRoutingHelper::PopulateRoutingTables(): engine internal
  Simulator.Stop (Seconds 10)
  if tracing then
    EnablePcap "third_1_rts" (← getAt wifiDevices 1)
  Simulator.Run
  Simulator.Destroy
  exit 0

/-- The script `ThirdScriptExample` (access-point/station scenario),
lines 193-326. -/
def main2 (cl : CommandLine) : Script Unit := do
  let verbose := true
  let nWifi := 5
  let tracing := true
  -- cmd.Parse(argc, argv)
  let nWifi := cl.nWifi.getD nWifi
  let verbose := cl.verbose.getD verbose
  let tracing := cl.tracing.getD tracing
  if nWifi > 18 then
    print guardMessage
    exit 1
  if verbose then
    LogComponentEnable "UdpEchoClientApplication"
    LogComponentEnable "UdpEchoServerApplication"
  let wifiNodes : NodeContainer := []
  let wifiNodes ← wifiNodes.Create nWifi
  let wifiApNode : NodeContainer := [← getAt wifiNodes 0]
  -- channel, phy, ssid, standard and rate manager: engine internals
  let mac := NetworkRole.coordinator
  let apDevices ← WifiHelper.Install mac wifiApNode
  let mac := NetworkRole.peer
  let staDevices ← WifiHelper.Install mac wifiNodes
  let mobility : MobilityHelper :=
    { position := PositionAllocator.new gridConfig,
      model := MobilityPolicy.boundedRandomWalk mobilityBounds }
  let mobility ← mobility.Install wifiNodes
  let mobility := mobility.SetMobilityModel MobilityPolicy.static
  let _ ← mobility.Install wifiApNode
  -- stack.Install(wifiNodes); stack.Install(wifiApNode): IP stack, engine internal
  let address := Ipv4AddressHelper.SetBase (ipv4 192 168 2 0) (ipv4 255 255 255 0)
  let address := (address.Assign apDevices).1
  let wifiInterfaces := (address.Assign staDevices).2
  -- SERVER
  let serverApp ← UdpEchoServerHelper.Install 21 (← getAt wifiApNode 0)
  serverApp.Start (Seconds 1)
  serverApp.Stop (Seconds 10)
  -- UDP Echo client on Node 3
  let echoClient_n3 : UdpEchoClientHelper :=
    { remote := (← GetAddress wifiInterfaces 0), port := 21,
      maxPackets := 2, interval := Seconds 2, packetSize := 512 }
  let clientApps_n3 ← echoClient_n3.Install (← getAt wifiNodes 3)
  clientApps_n3.Start (Seconds 3)
  clientApps_n3.Stop (Seconds 10)
  -- UDP Echo client on Node 4
  let echoClient_n4 : UdpEchoClientHelper :=
    { remote := (← GetAddress wifiInterfaces 0), port := 21,
      maxPackets := 2, interval := Seconds 3, packetSize := 512 }
  let clientApps_n4 ← echoClient_n4.Install (← getAt wifiNodes 4)
  clientApps_n4.Start (Seconds 2)
  clientApps_n4.Stop (Seconds 10)
  -- Ipv4GlobalRoutingHelper::PopulateRoutingTables(): engine internal
  Simulator.Stop (Seconds 10)
  if tracing then
    EnablePcap "third_2i" (← getAt apDevices 0)
    EnablePcap "third_2ii" (← getAt staDevices 4)
  Simulator.Run
  Simulator.Destroy
  exit 0

/-- Run the ad-hoc script as a fresh process. -/
def run1 (cl : CommandLine) : Outcome Unit := main1 cl World.init

/-- Run the access-point/station script as a fresh process. -/
def run2 (cl : CommandLine) : Outcome Unit := main2 cl World.init

/-! ## Observations used in the statements -/

/-- The value of `nWifi` after `cmd.Parse`: the flag's value, or the default 5
of both scripts when the flag is absent. -/
def nWifiOf (cl : CommandLine) : Nat := cl.nWifi.getD 5

/-- The command line of a run without flags. -/
def noFlags : CommandLine := { nWifi := none, verbose := none, tracing := none }

/-- A command line asking for zero nodes. -/
def zeroNodesLine : CommandLine := { nWifi := some 0, verbose := none, tracing := none }

/-- A command line asking for three nodes. -/
def threeNodesLine : CommandLine := { nWifi := some 3, verbose := none, tracing := none }

/-- A command line asking for four nodes. -/
def fourNodesLine : CommandLine := { nWifi := some 4, verbose := none, tracing := none }

/-- A command line asking for four nodes with tracing switched off. -/
def fourNodesUntraced : CommandLine := { nWifi := some 4, verbose := none, tracing := some false }

/-- A command line asking for eighteen nodes, the largest accepted count. -/
def fullGridLine : CommandLine := { nWifi := some 18, verbose := none, tracing := none }

/-- A command line asking for nineteen nodes, the smallest rejected count. -/
def nineteenNodesLine : CommandLine := { nWifi := some 19, verbose := none, tracing := none }

/-- The position held by the node with index `i`, if the node exists and has
been placed. -/
def nodePosition (w : World) (i : Nat) : Option Vec2 :=
  (w.nodes.find? (fun nd => nd.index == i)).bind Node.position

/-- The interface roles attached to the node with index `i`. -/
def interfacesOf (w : World) (i : Nat) : List NetworkRole :=
  match w.nodes.find? (fun nd => nd.index == i) with
  | some nd => nd.interfaces
  | none => []

/-- The number of interfaces of role `role` over all nodes. -/
def roleCount (w : World) (role : NetworkRole) : Nat :=
  (w.nodes.map (fun nd => nd.interfaces.count role)).sum

/-- The three ways a boolean flag can appear on the command line. -/
def flagValues : List (Option Bool) := [none, some true, some false]

/-- Every command line whose node count passes the guard. -/
def acceptedLines : List CommandLine :=
  (none :: (List.range 19).map some).flatMap (fun n =>
    flagValues.flatMap (fun v => flagValues.map (fun t => { nWifi := n, verbose := v, tracing := t })))

/-- The first `n` positions of the configured grid, in allocation order. -/
def firstPositions (n : Nat) : List Vec2 :=
  (List.range n).map (PositionAllocator.new gridConfig).nth

/-! ## Traffic scheduler -/

/-- Quotient and remainder of `k + 1` when the remainder of `k` does not wrap. -/
theorem succ_divmod_same_line (k w : Nat) (hw : 0 < w) (h : k % w + 1 < w) :
    (k + 1) % w = k % w + 1 ∧ (k + 1) / w = k / w := by
  have hk : k + 1 = w * (k / w) + (k % w + 1) := by
    have := Nat.div_add_mod k w
    omega
  constructor
  · rw [hk, Nat.mul_add_mod, Nat.mod_eq_of_lt h]
  · rw [hk, Nat.mul_add_div hw, Nat.div_eq_of_lt h, Nat.add_zero]

/-- Quotient and remainder of `k + 1` when the remainder of `k` wraps. -/
theorem succ_divmod_next_line (k w : Nat) (hw : 0 < w) (h : ¬ k % w + 1 < w) :
    (k + 1) % w = 0 ∧ (k + 1) / w = k / w + 1 := by
  have hlt := Nat.mod_lt k hw
  have hk : k + 1 = w * (k / w + 1) := by
    have := Nat.div_add_mod k w
    rw [Nat.mul_add, Nat.mul_one]
    omega
  constructor
  · rw [hk, Nat.mul_mod_right]
  · rw [hk, Nat.mul_div_cancel_left _ hw]

/-- The state of a row-first allocator after `k` calls of `next()`. -/
theorem advance_new (cfg : GridLayoutConfig) (hrow : cfg.rowFirst = true)
    (hw : 0 < cfg.gridWidth) (k : Nat) :
    (PositionAllocator.new cfg).advance k =
      { cfg := cfg,
        along := cfg.minX + ((k % cfg.gridWidth : Nat) : Int) * cfg.deltaX,
        across := cfg.minY + ((k / cfg.gridWidth : Nat) : Int) * cfg.deltaY,
        column := k % cfg.gridWidth } := by
  induction k with
  | zero => simp [PositionAllocator.advance, PositionAllocator.new, hrow]
  | succ k ih =>
    rw [PositionAllocator.advance, ih]
    by_cases h : k % cfg.gridWidth + 1 < cfg.gridWidth
    · obtain ⟨hm, hd⟩ := succ_divmod_same_line k cfg.gridWidth hw h
      simp only [PositionAllocator.next, hrow, h, if_true, hm, hd]
      simp only [PositionAllocator.mk.injEq, true_and, and_true]
      push_cast
      ring
    · obtain ⟨hm, hd⟩ := succ_divmod_next_line k cfg.gridWidth hw h
      simp only [PositionAllocator.next, hrow, h, if_true, if_false, hm, hd]
      simp only [PositionAllocator.mk.injEq, true_and, and_true]
      push_cast
      constructor <;> ring

/-- The `k`-th call of `next()` on a row-first grid of positive width returns
the closed form of the specification. -/
theorem nth_eq_gridPosition (cfg : GridLayoutConfig) (hrow : cfg.rowFirst = true)
    (hw : 0 < cfg.gridWidth) (k : Nat) :
    (PositionAllocator.new cfg).nth k = gridPosition cfg k := by
  unfold PositionAllocator.nth
  rw [advance_new cfg hrow hw k]
  by_cases h : k % cfg.gridWidth + 1 < cfg.gridWidth <;>
    simp [PositionAllocator.next, hrow, h, gridPosition]

/-- In the configured grid a position lies inside the mobility bounds exactly
when its index is below 30 (ten rows of three). -/
theorem gridPosition_inside_iff (i : Nat) :
    mobilityBounds.IsInside (gridPosition gridConfig i) ↔ i < 30 := by
  simp only [Rectangle.IsInside, gridPosition, gridConfig, mobilityBounds]
  omega

/-! ## Command lines that pass the guard -/

/-- Any command line with a node count of at most 18 is one of the
enumerated accepted lines. -/
theorem mem_acceptedLines (cl : CommandLine) (h : nWifiOf cl ≤ 18) : cl ∈ acceptedLines := by
  obtain ⟨n, v, t⟩ := cl
  have hv : ∀ b : Option Bool, b ∈ flagValues := by
    intro b
    rcases b with _ | _ | _ <;> simp [flagValues]
  simp only [acceptedLines, List.mem_flatMap, List.mem_map]
  refine ⟨n, ?_, v, hv v, t, hv t, rfl⟩
  rcases n with _ | n
  · simp
  · simp only [nWifiOf, Option.getD_some] at h
    simp only [List.mem_cons, List.mem_map, List.mem_range]
    exact Or.inr ⟨n, by omega, rfl⟩

/-! ## The traffic scheduler in closed form -/

set_option maxRecDepth 1000000 in
/-- Exit behaviour on the accepted command lines. -/
theorem accepted_exit_status : ∀ cl ∈ acceptedLines,
    (run1 cl).exitStatus = some 0 ∧
    (5 ≤ nWifiOf cl → (run2 cl).exitStatus = some 0) ∧
    (nWifiOf cl < 5 → (run2 cl).exitStatus = none ∧ (run2 cl).fault ≠ none) := by
  decide

set_option maxRecDepth 1000000 in
/-- Node indices on the accepted command lines. -/
theorem accepted_node_indices : ∀ cl ∈ acceptedLines,
    (run1 cl).world.nodes.map Node.index = List.range 5 ∧
    (run2 cl).world.nodes.map Node.index = List.range (nWifiOf cl) := by
  decide

set_option maxRecDepth 1000000 in
/-- Node positions on the accepted command lines. -/
theorem accepted_positions : ∀ cl ∈ acceptedLines,
    (∀ i, i < (run1 cl).world.nodes.length →
      nodePosition (run1 cl).world i = some (gridPosition gridConfig i)) ∧
    (∀ i, i < nWifiOf cl → 1 ≤ i →
      nodePosition (run2 cl).world i = some (gridPosition gridConfig i)) ∧
    (1 ≤ nWifiOf cl →
      nodePosition (run2 cl).world 0 = some (gridPosition gridConfig (nWifiOf cl))) := by
  decide

set_option maxRecDepth 1000000 in
/-- Allocated positions on the accepted command lines. -/
theorem accepted_allocations : ∀ cl ∈ acceptedLines,
    (run1 cl).world.allocated = firstPositions 5 ∧
    (1 ≤ nWifiOf cl → (run2 cl).world.allocated = firstPositions (nWifiOf cl + 1)) ∧
    (∀ p ∈ (run1 cl).world.allocated, mobilityBounds.IsInside p) ∧
    (∀ p ∈ (run2 cl).world.allocated, mobilityBounds.IsInside p) := by
  decide

set_option maxRecDepth 1000000 in
/-- Interfaces of the access-point/station script on the accepted command
lines with at least one node. -/
theorem accepted_interfaces : ∀ cl ∈ acceptedLines, 1 ≤ nWifiOf cl →
    (run2 cl).world.nodes.length = nWifiOf cl ∧
    roleCount (run2 cl).world NetworkRole.coordinator = 1 ∧
    (interfacesOf (run2 cl).world 0).count NetworkRole.coordinator = 1 ∧
    (∀ i, i < nWifiOf cl → (interfacesOf (run2 cl).world i).count NetworkRole.peer = 1) ∧
    roleCount (run2 cl).world NetworkRole.peer = nWifiOf cl := by
  decide

/-- Both scripts return 1 exactly when the parsed node count exceeds 18. -/
theorem exit_one_iff (cl : CommandLine) :
    ((run1 cl).exitStatus = some 1 ↔ 18 < nWifiOf cl) ∧
    ((run2 cl).exitStatus = some 1 ↔ 18 < nWifiOf cl) := by
  by_cases h : 18 < nWifiOf cl
  · have h2 := h
    unfold nWifiOf at h2
    simp [run1, run2, main1, main2, bind, Script.bind, h, h2, print, update, exit,
      NodeContainer.Create, Outcome.exitStatus]
  · have hmem := mem_acceptedLines cl (not_lt.mp h)
    have h1 := (accepted_exit_status cl hmem).1
    have h5 := (accepted_exit_status cl hmem).2.1
    have h0 := (accepted_exit_status cl hmem).2.2
    refine ⟨by simp [h1, h], ?_⟩
    by_cases h4 : 5 ≤ nWifiOf cl
    · simp [h5 h4, h]
    · simp [(h0 (not_le.mp h4)).1, h]

/-- The values of `verbose` and `tracing` never change the exit status of
either script. -/
theorem flags_do_not_change_exit_status (n : Option Nat) (v t v2 t2 : Option Bool) :
    (run1 { nWifi := n, verbose := v, tracing := t }).exitStatus =
      (run1 { nWifi := n, verbose := v2, tracing := t2 }).exitStatus ∧
    (run2 { nWifi := n, verbose := v, tracing := t }).exitStatus =
      (run2 { nWifi := n, verbose := v2, tracing := t2 }).exitStatus := by
  by_cases h : 18 < n.getD 5
  · have ha := exit_one_iff { nWifi := n, verbose := v, tracing := t }
    have hb := exit_one_iff { nWifi := n, verbose := v2, tracing := t2 }
    exact ⟨(ha.1.2 h).trans (hb.1.2 h).symm, (ha.2.2 h).trans (hb.2.2 h).symm⟩
  · have ha := accepted_exit_status { nWifi := n, verbose := v, tracing := t }
      (mem_acceptedLines _ (not_lt.mp h))
    have hb := accepted_exit_status { nWifi := n, verbose := v2, tracing := t2 }
      (mem_acceptedLines _ (not_lt.mp h))
    refine ⟨ha.1.trans hb.1.symm, ?_⟩
    by_cases h5 : 5 ≤ n.getD 5
    · exact (ha.2.1 h5).trans (hb.2.1 h5).symm
    · exact (ha.2.2 (not_le.mp h5)).1.trans (hb.2.2 (not_le.mp h5)).1.symm

/-- The ad-hoc script holds five nodes on every command line, whatever the
node count asked for; a rejected access-point/station build holds none. -/
theorem node_set_at_exit (cl : CommandLine) :
    (run1 cl).world.nodes.map Node.index = List.range 5 ∧
    (18 < nWifiOf cl → (run2 cl).world.nodes = []) := by
  by_cases h : 18 < nWifiOf cl
  · have h2 := h
    unfold nWifiOf at h2
    simp [run1, run2, main1, main2, bind, Script.bind, h, h2, print, update, exit,
      NodeContainer.Create, Outcome.world, World.init]
    decide
  · exact ⟨(accepted_node_indices cl (mem_acceptedLines cl (not_lt.mp h))).1, fun h3 => absurd h3 h⟩

/-- The configured grid leaves the mobility bounds exactly when more than 30
positions are taken from it. -/
theorem grid_exceeds_bounds_iff (n : Nat) :
    (∃ i, i < n ∧ ¬ mobilityBounds.IsInside ((PositionAllocator.new gridConfig).nth i)) ↔ 30 < n := by
  constructor
  · rintro ⟨i, hi, hout⟩
    rw [nth_eq_gridPosition gridConfig rfl (by decide), gridPosition_inside_iff] at hout
    omega
  · intro h
    refine ⟨30, h, ?_⟩
    rw [nth_eq_gridPosition gridConfig rfl (by decide), gridPosition_inside_iff]
    omega

/-! ## The claims -/

/-- C1, evaluated where the access-point/station script breaks it: asked for
zero nodes (a count the guard accepts) the script reads element 0 of the
empty node container, so it neither returns 0 nor starts the simulation. -/
theorem main2_zero_nodes_never_returns :
    nWifiOf zeroNodesLine ≤ 18 ∧
    (run2 zeroNodesLine).exitStatus = none ∧
    (run2 zeroNodesLine).fault = some (0, 0) ∧
    (run2 zeroNodesLine).world.sim = SimState.idle := by
  decide

/-- C2, evaluated where the ad-hoc script breaks it: asked for three nodes
the script completes with the five nodes it created before parsing the
command line. -/
theorem main1_three_nodes_builds_five :
    nWifiOf threeNodesLine = 3 ∧
    (run1 threeNodesLine).exitStatus = some 0 ∧
    (run1 threeNodesLine).world.nodes.map Node.index = [0, 1, 2, 3, 4] := by
  decide

/-- C3, refuted as stated: in the access-point/station script with the
default five nodes, node 0 ends mobility installation at (10, 10), the sixth
grid position, not at the grid position of index 0. -/
theorem main2_access_point_leaves_origin :
    nWifiOf noFlags = 5 ∧
    nodePosition (run2 noFlags).world 0 = some { x := 10, y := 10 } ∧
    nodePosition (run2 noFlags).world 0 ≠ some (gridPosition gridConfig 0) := by
  decide

/-- C3, amended: the `k`-th `next()` of the configured allocator returns the
grid position of index `k`, that is `((k mod 3) * 5, (k / 3) * 10)`; on every
accepted command line, once mobility installation is done, each node `i` of
the node set built by the ad-hoc script holds the grid position of index `i`,
each node `i` with `1 ≤ i < nWifi` of the access-point/station script holds
the grid position of index `i`, and node 0 of that script, on which mobility
is installed a second time, holds the position of that extra allocation, the
grid position of index `nWifi`. -/
theorem node_positions_after_mobility (cl : CommandLine) (h : nWifiOf cl ≤ 18) :
    (∀ k, (PositionAllocator.new gridConfig).nth k = gridPosition gridConfig k ∧
      gridPosition gridConfig k = { x := ((k % 3 : Nat) : Int) * 5, y := ((k / 3 : Nat) : Int) * 10 }) ∧
    (∀ i, i < (run1 cl).world.nodes.length →
      nodePosition (run1 cl).world i = some (gridPosition gridConfig i)) ∧
    (∀ i, 1 ≤ i → i < nWifiOf cl →
      nodePosition (run2 cl).world i = some (gridPosition gridConfig i)) ∧
    (1 ≤ nWifiOf cl →
      nodePosition (run2 cl).world 0 = some (gridPosition gridConfig (nWifiOf cl))) := by
  have hacc := accepted_positions cl (mem_acceptedLines cl h)
  refine ⟨fun k => ⟨nth_eq_gridPosition gridConfig rfl (by decide) k, ?_⟩, hacc.1,
    fun i h1 hi => hacc.2.1 i hi h1, hacc.2.2⟩
  simp [gridPosition, gridConfig]

/-- C3, amended, at the largest accepted node count. -/
theorem node_positions_after_mobility_witness :
    nWifiOf fullGridLine ≤ 18 ∧
    ((∀ k, (PositionAllocator.new gridConfig).nth k = gridPosition gridConfig k ∧
      gridPosition gridConfig k = { x := ((k % 3 : Nat) : Int) * 5, y := ((k / 3 : Nat) : Int) * 10 }) ∧
    (∀ i, i < (run1 fullGridLine).world.nodes.length →
      nodePosition (run1 fullGridLine).world i = some (gridPosition gridConfig i)) ∧
    (∀ i, 1 ≤ i → i < nWifiOf fullGridLine →
      nodePosition (run2 fullGridLine).world i = some (gridPosition gridConfig i)) ∧
    (1 ≤ nWifiOf fullGridLine →
      nodePosition (run2 fullGridLine).world 0 =
        some (gridPosition gridConfig (nWifiOf fullGridLine)))) :=
  ⟨by decide, node_positions_after_mobility fullGridLine (by decide)⟩

/-- C4: for every node count above 18 both scripts return 1 and at that
moment no position has been allocated (no placement is recorded and no node
holds a position), no application and no stop event has been scheduled, no
capture is armed and the simulation run has not been started. -/
theorem rejected_build_has_no_effects (cl : CommandLine) (h : 18 < nWifiOf cl) :
    ((run1 cl).exitStatus = some 1 ∧ (run1 cl).world.allocated = [] ∧
      (∀ nd ∈ (run1 cl).world.nodes, nd.position = none) ∧
      (run1 cl).world.apps = [] ∧ (run1 cl).world.stopAt = none ∧
      (run1 cl).world.captures = [] ∧ (run1 cl).world.sim = SimState.idle) ∧
    ((run2 cl).exitStatus = some 1 ∧ (run2 cl).world.allocated = [] ∧
      (∀ nd ∈ (run2 cl).world.nodes, nd.position = none) ∧
      (run2 cl).world.apps = [] ∧ (run2 cl).world.stopAt = none ∧
      (run2 cl).world.captures = [] ∧ (run2 cl).world.sim = SimState.idle) := by
  unfold nWifiOf at h
  simp [run1, run2, main1, main2, bind, Script.bind, h, print, update, exit, NodeContainer.Create,
    Outcome.exitStatus, Outcome.world, World.allocated, World.init]

/-- C4 at nineteen nodes. -/
theorem rejected_build_has_no_effects_witness :
    18 < nWifiOf nineteenNodesLine ∧
    (((run1 nineteenNodesLine).exitStatus = some 1 ∧ (run1 nineteenNodesLine).world.allocated = [] ∧
      (∀ nd ∈ (run1 nineteenNodesLine).world.nodes, nd.position = none) ∧
      (run1 nineteenNodesLine).world.apps = [] ∧ (run1 nineteenNodesLine).world.stopAt = none ∧
      (run1 nineteenNodesLine).world.captures = [] ∧
      (run1 nineteenNodesLine).world.sim = SimState.idle) ∧
    ((run2 nineteenNodesLine).exitStatus = some 1 ∧ (run2 nineteenNodesLine).world.allocated = [] ∧
      (∀ nd ∈ (run2 nineteenNodesLine).world.nodes, nd.position = none) ∧
      (run2 nineteenNodesLine).world.apps = [] ∧ (run2 nineteenNodesLine).world.stopAt = none ∧
      (run2 nineteenNodesLine).world.captures = [] ∧
      (run2 nineteenNodesLine).world.sim = SimState.idle)) :=
  ⟨by decide, rejected_build_has_no_effects nineteenNodesLine (by decide)⟩

/-- C5, evaluated where the ad-hoc script breaks it: asked for nineteen
nodes the script returns 1 from the guard with five nodes already created. -/
theorem main1_guard_runs_after_node_creation :
    18 < nWifiOf nineteenNodesLine ∧
    (run1 nineteenNodesLine).exitStatus = some 1 ∧
    (run1 nineteenNodesLine).world.nodes.length = 5 := by
  decide

/-- C6, refuted as stated: in the access-point/station script with the
default five nodes, node 0 carries a Peer interface and there are five Peer
interfaces, not four. -/
theorem main2_access_point_is_also_peer :
    nWifiOf noFlags = 5 ∧
    NetworkRole.peer ∈ interfacesOf (run2 noFlags).world 0 ∧
    roleCount (run2 noFlags).world NetworkRole.peer = 5 := by
  decide

/-- C6, amended: in the access-point/station script, for every node count
from 1 to 18, the built node set has that many nodes, exactly one Coordinator
interface exists and node 0 carries it, every node `0..nWifi-1` (node 0
included) carries exactly one Peer interface, and the number of Peer
interfaces equals the node count. -/
theorem coordinator_and_peer_interfaces (cl : CommandLine) (h1 : 1 ≤ nWifiOf cl)
    (h : nWifiOf cl ≤ 18) :
    (run2 cl).world.nodes.length = nWifiOf cl ∧
    roleCount (run2 cl).world NetworkRole.coordinator = 1 ∧
    (interfacesOf (run2 cl).world 0).count NetworkRole.coordinator = 1 ∧
    (∀ i, i < nWifiOf cl → (interfacesOf (run2 cl).world i).count NetworkRole.peer = 1) ∧
    roleCount (run2 cl).world NetworkRole.peer = nWifiOf cl :=
  accepted_interfaces cl (mem_acceptedLines cl h) h1

/-- C6, amended, at the default node count. -/
theorem coordinator_and_peer_interfaces_witness :
    (1 ≤ nWifiOf noFlags ∧ nWifiOf noFlags ≤ 18) ∧
    ((run2 noFlags).world.nodes.length = nWifiOf noFlags ∧
    roleCount (run2 noFlags).world NetworkRole.coordinator = 1 ∧
    (interfacesOf (run2 noFlags).world 0).count NetworkRole.coordinator = 1 ∧
    (∀ i, i < nWifiOf noFlags → (interfacesOf (run2 noFlags).world i).count NetworkRole.peer = 1) ∧
    roleCount (run2 noFlags).world NetworkRole.peer = nWifiOf noFlags) :=
  ⟨by decide, coordinator_and_peer_interfaces noFlags (by decide) (by decide)⟩

/-- C8: on every accepted command line the positions handed out during
mobility installation are the first five grid positions in the ad-hoc script
and the first `nWifi + 1` grid positions (one per node, then one more for the
access point) in the access-point/station script with at least one node, and
every position handed out in either script lies inside the configured
mobility rectangle `[-90, 90] × [-90, 90]`. -/
theorem allocated_positions_inside_bounds (cl : CommandLine) (h : nWifiOf cl ≤ 18) :
    (run1 cl).world.allocated = firstPositions 5 ∧
    (1 ≤ nWifiOf cl → (run2 cl).world.allocated = firstPositions (nWifiOf cl + 1)) ∧
    (∀ p ∈ (run1 cl).world.allocated, mobilityBounds.IsInside p) ∧
    (∀ p ∈ (run2 cl).world.allocated, mobilityBounds.IsInside p) :=
  accepted_allocations cl (mem_acceptedLines cl h)

/-- C8 at the largest accepted node count. -/
theorem allocated_positions_inside_bounds_witness :
    nWifiOf fullGridLine ≤ 18 ∧
    ((run1 fullGridLine).world.allocated = firstPositions 5 ∧
    (1 ≤ nWifiOf fullGridLine →
      (run2 fullGridLine).world.allocated = firstPositions (nWifiOf fullGridLine + 1)) ∧
    (∀ p ∈ (run1 fullGridLine).world.allocated, mobilityBounds.IsInside p) ∧
    (∀ p ∈ (run2 fullGridLine).world.allocated, mobilityBounds.IsInside p)) :=
  ⟨by decide, allocated_positions_inside_bounds fullGridLine (by decide)⟩

/-- C9, evaluated where the configuration breaks it: all of the first
nineteen positions of the configured grid (the last one is (0, 60)) lie
inside the configured mobility rectangle. -/
theorem nineteen_grid_positions_fit :
    (firstPositions 19).all (fun p => decide (mobilityBounds.IsInside p)) = true ∧
    (firstPositions 19).getLast? = some { x := 0, y := 60 } := by
  decide

/-- C10, evaluated where the access-point/station script breaks it: with
three nodes it asks a three-element node container for element 3, and with
four nodes it asks a four-element container for element 4, whether or not
tracing is on. -/
theorem main2_small_counts_index_past_end :
    (run2 threeNodesLine).fault = some (3, 3) ∧
    (run2 fourNodesLine).fault = some (4, 4) ∧
    (run2 fourNodesUntraced).fault = some (4, 4) := by
  decide

end Scenario
